import Mathlib

/-!
Verification development for the product-registration / service-request
backend (`src/main.py`, `src/schemas.py`).

The handlers and the warranty helper are shallowly embedded as pure Lean
functions.  Calendar dates are modelled after CPython's `datetime.date`:
a triple year/month/day on the proleptic Gregorian calendar, with
addition performed through the day-ordinal (`date.toordinal` /
`date.fromordinal`); the day line is taken unbounded (Python's year-9999
cap is a representation limit, not part of the program's logic).
The document store (`database.py`, which is not part of the sources) is
modelled from the spec: a generic insert-one / find-many accessor over a
list of documents.
-/

namespace Backend

/-- A calendar date, as CPython's `datetime.date`: year, month, day. -/
structure Date where
  year : Nat
  month : Nat
  day : Nat
  deriving DecidableEq, Repr

/-- CPython `_is_leap`: leap year predicate of the proleptic Gregorian
calendar. -/
def isLeap (y : Nat) : Bool :=
  y % 4 == 0 && (y % 100 != 0 || y % 400 == 0)

/-- CPython `_DAYS_IN_MONTH` table (non-leap February). -/
def daysInMonthTab : Nat → Nat
  | 1 => 31 | 2 => 28 | 3 => 31 | 4 => 30 | 5 => 31 | 6 => 30
  | 7 => 31 | 8 => 31 | 9 => 30 | 10 => 31 | 11 => 30 | 12 => 31
  | _ => 0

/-- CPython `_DAYS_BEFORE_MONTH` table: days in a non-leap year strictly
before the given month. -/
def daysBeforeMonthTab : Nat → Nat
  | 1 => 0 | 2 => 31 | 3 => 59 | 4 => 90 | 5 => 120 | 6 => 151
  | 7 => 181 | 8 => 212 | 9 => 243 | 10 => 273 | 11 => 304 | 12 => 334
  | _ => 0

/-- CPython `_days_in_month`: number of days of a month in a given year. -/
def daysInMonth (y m : Nat) : Nat :=
  if m == 2 && isLeap y then 29 else daysInMonthTab m

/-- CPython `_days_before_year`: days strictly before January 1 of the
given year, counting from year 1. -/
def daysBeforeYear (y : Nat) : Nat :=
  let z := y - 1
  z * 365 + z / 4 - z / 100 + z / 400

/-- CPython `_days_before_month`. -/
def daysBeforeMonth (y m : Nat) : Nat :=
  daysBeforeMonthTab m + (if 2 < m && isLeap y then 1 else 0)

/-- CPython `_ymd2ord` / `date.toordinal`: day 1 is January 1 of year 1. -/
def Date.toordinal (d : Date) : Nat :=
  daysBeforeYear d.year + daysBeforeMonth d.year d.month + d.day

/-- CPython `_ord2ymd` / `date.fromordinal`: inverse of `Date.toordinal`,
via the 400/100/4/1-year cycle decomposition. -/
def Date.fromordinal (n0 : Nat) : Date :=
  let n := n0 - 1
  let n400 := n / 146097
  let n := n % 146097
  let n100 := n / 36524
  let n := n % 36524
  let n4 := n / 1461
  let n := n % 1461
  let n1 := n / 365
  let n := n % 365
  let year := n400 * 400 + 1 + n100 * 100 + n4 * 4 + n1
  if n1 == 4 || n100 == 4 then
    ⟨year - 1, 12, 31⟩
  else
    let leap := n1 == 3 && (n4 != 24 || n100 == 3)
    let month := (n + 50) / 32
    let preceding := daysBeforeMonthTab month + (if 2 < month && leap then 1 else 0)
    if n < preceding then
      let month := month - 1
      let preceding := preceding - (daysInMonthTab month + (if month == 2 && leap then 1 else 0))
      ⟨year, month, n - preceding + 1⟩
    else
      ⟨year, month, n - preceding + 1⟩

/-- `date.__add__` with a non-negative day count: CPython adds the
timedelta to the ordinal and converts back. -/
def Date.addDays (d : Date) (days : Nat) : Date :=
  Date.fromordinal (d.toordinal + days)

/-- `date.isoformat` helper: a number zero-padded to the given width. -/
def padNum (w n : Nat) : String :=
  let s := toString n
  String.mk (List.replicate (w - s.length) '0') ++ s

/-- `date.isoformat`: the YYYY-MM-DD rendering. -/
def Date.isoformat (d : Date) : String :=
  padNum 4 d.year ++ "-" ++ padNum 2 d.month ++ "-" ++ padNum 2 d.day

/-- A decimal digit of an ASCII character, or failure. -/
def parseDigit (c : Char) : Option Nat :=
  if c.isDigit then some (c.toNat - 48) else none

/-- `date.fromisoformat`, for the canonical `YYYY-MM-DD` form: parses the
ten-character string and validates the calendar date (year at least 1,
month 1–12, day within the month); any other input fails, which models
the `ValueError` the CPython function raises. -/
def Date.fromisoformat (s : String) : Option Date :=
  match s.toList with
  | [y1, y2, y3, y4, c1, m1, m2, c2, d1, d2] =>
    if c1 = '-' ∧ c2 = '-' then
      match parseDigit y1, parseDigit y2, parseDigit y3, parseDigit y4,
            parseDigit m1, parseDigit m2, parseDigit d1, parseDigit d2 with
      | some a, some b, some c, some d, some e, some f, some g, some h =>
        let y := ((a * 10 + b) * 10 + c) * 10 + d
        let m := e * 10 + f
        let dy := g * 10 + h
        if 1 ≤ y ∧ 1 ≤ m ∧ m ≤ 12 ∧ 1 ≤ dy ∧ dy ≤ daysInMonth y m then
          some ⟨y, m, dy⟩
        else none
      | _, _, _, _, _, _, _, _ => none
    else none
  | _ => none

/-- `compute_warranty_end` (src/main.py lines 91–95): `None` when the
purchase date is absent, the month count is absent, falsy (`not months`,
i.e. zero) or non-positive; otherwise the purchase date plus `30 * months`
days.  A Python `date` is always truthy, so `not purchase_date` is exactly
absence. -/
def compute_warranty_end (purchase_date : Option Date) (months : Option Int) :
    Option Date :=
  match purchase_date, months with
  | none, _ => none
  | _, none => none
  | some pd, some m =>
    if m == 0 || m ≤ 0 then none
    else some (pd.addDays (30 * m).toNat)

/-- The form a `purchase_date` value can take in a persisted product
document: a date, a date-time (carrying the date its `.date()` returns),
an ISO string, or null/absent. -/
inductive StoredPD where
  | d (x : Date)
  | dt (x : Date)
  | str (s : String)
  | null
  deriving DecidableEq, Repr

/-- The `pd_date` coercion inside `list_products` (src/main.py lines
133–141): a string is parsed with `date.fromisoformat` (the `except`
turns a parse error into `None`), a datetime is projected with `.date()`,
anything else — a date or `None` — is used as is. -/
def coerce_pd : StoredPD → Option Date
  | .str s => Date.fromisoformat s
  | .dt x => some x
  | .d x => some x
  | .null => none

/-- Python truthiness of an optional string: `None` and `""` are falsy. -/
def truthyStr : Option String → Bool
  | none => false
  | some s => !s.isEmpty

/-- A persisted product document (`product` collection): the store's
identifier `_id` plus the fields of `schemas.Product`, with
`purchase_date` in whatever form it was persisted. -/
structure ProductDoc where
  oid : String
  user_id : String
  brand : String
  model : String
  serial_number : String
  category : Option String
  purchase_date : StoredPD
  warranty_months : Option Int
  invoice_url : Option String
  deriving DecidableEq, Repr

/-- The filter mapping `list_products` builds: an optional exact-match
condition per field. -/
structure ProductFilter where
  user_id : Option String
  brand : Option String
  deriving DecidableEq, Repr

/-- Whether a product document matches a filter: every supplied condition
must hold (document-store equality on the field). -/
def matchesProduct (f : ProductFilter) (d : ProductDoc) : Bool :=
  (match f.user_id with | some u => d.user_id == u | none => true) &&
  (match f.brand with | some b => d.brand == b | none => true)

/-- Modelled from the spec: `get_documents` lives in `database.py`, which
is not among the sources; per §6 the store provides find-many mapping a
filter to a bounded-limit ordered sequence of documents, preserving
store-reported (insertion) order. -/
def get_documents_product (store : List ProductDoc) (f : ProductFilter)
    (limit : Nat) : List ProductDoc :=
  (store.filter (matchesProduct f)).take limit

/-- One element of the `list_products` response: the document with `_id`
popped, `id` added, and `warranty_end` computed on the fly (`None`
rendered as null). -/
structure ProductOutDoc where
  id : String
  user_id : String
  brand : String
  model : String
  serial_number : String
  category : Option String
  purchase_date : StoredPD
  warranty_months : Option Int
  invoice_url : Option String
  warranty_end : Option String
  deriving DecidableEq, Repr

/-- The per-document post-processing of `list_products` (src/main.py
lines 128–143): rename `_id` to `id`, coerce the stored `purchase_date`,
recompute `warranty_end` and render it as an ISO string or null. -/
def processProductDoc (d : ProductDoc) : ProductOutDoc :=
  let pd_date := coerce_pd d.purchase_date
  let e := compute_warranty_end pd_date d.warranty_months
  { id := d.oid
    user_id := d.user_id
    brand := d.brand
    model := d.model
    serial_number := d.serial_number
    category := d.category
    purchase_date := d.purchase_date
    warranty_months := d.warranty_months
    invoice_url := d.invoice_url
    warranty_end := e.map Date.isoformat }

/-- The filter-building prologue of `list_products` (src/main.py lines
121–125): a condition is added only when the query parameter is truthy
(so `None` and `""` both add none). -/
def mkProductFilter (user_id brand : Option String) : ProductFilter :=
  { user_id := if truthyStr user_id then user_id else none
    brand := if truthyStr brand then brand else none }

/-- `list_products` (src/main.py lines 118–144): build the filter from
the truthy query parameters, fetch up to 100 documents, post-process each. -/
def list_products (store : List ProductDoc)
    (user_id : Option String) (brand : Option String) : List ProductOutDoc :=
  let docs := get_documents_product store (mkProductFilter user_id brand) 100
  docs.map processProductDoc

/-- A persisted service-center document (`servicecenter` collection):
the store identifier plus the fields of `schemas.ServiceCenter` (the
float `rating` is carried as a rational, it is never computed with). -/
structure CenterDoc where
  oid : String
  name : String
  brands : List String
  address : String
  city : String
  phone : Option String
  rating : Option Rat
  deriving DecidableEq, Repr

/-- The filter mapping `list_service_centers` builds: optional exact
match on `city`, optional membership condition on `brands` (the Mongo
query operator for set membership applied to a one-element list). -/
structure CenterFilter where
  city : Option String
  brand : Option String
  deriving DecidableEq, Repr

/-- Whether a service-center document matches a filter: exact equality
on `city`; the membership condition holds when the document's `brands`
sequence contains the requested brand. -/
def matchesCenter (f : CenterFilter) (d : CenterDoc) : Bool :=
  (match f.city with | some c => d.city == c | none => true) &&
  (match f.brand with | some b => d.brands.contains b | none => true)

/-- Modelled from the spec: `get_documents` for the `servicecenter`
collection (`database.py` is not among the sources); per §6 find-many
returns a bounded-limit ordered sequence of matching documents. -/
def get_documents_center (store : List CenterDoc) (f : CenterFilter)
    (limit : Nat) : List CenterDoc :=
  (store.filter (matchesCenter f)).take limit

/-- One element of the `list_service_centers` response: the document with
`_id` popped and `id` added; no other field is touched and no computed
field is added. -/
structure CenterOutDoc where
  id : String
  name : String
  brands : List String
  address : String
  city : String
  phone : Option String
  rating : Option Rat
  deriving DecidableEq, Repr

/-- The per-document post-processing of `list_service_centers`
(src/main.py lines 163–164): only the identifier rename. -/
def processCenterDoc (d : CenterDoc) : CenterOutDoc :=
  { id := d.oid
    name := d.name
    brands := d.brands
    address := d.address
    city := d.city
    phone := d.phone
    rating := d.rating }

/-- The filter-building prologue of `list_service_centers` (src/main.py
lines 157–161): exact match on a truthy `city`, membership condition on
a truthy `brand`. -/
def mkCenterFilter (city brand : Option String) : CenterFilter :=
  { city := if truthyStr city then city else none
    brand := if truthyStr brand then brand else none }

/-- `list_service_centers` body (src/main.py lines 154–165). -/
def list_service_centers (store : List CenterDoc)
    (city : Option String) (brand : Option String) : List CenterOutDoc :=
  let centers := get_documents_center store (mkCenterFilter city brand) 100
  centers.map processCenterDoc

/-- A JSON object rendered by a create handler or the listing wrappers:
an ordered association of keys to string-or-null values. -/
def Response := List (String × Option String)

instance : DecidableEq Response := by
  unfold Response
  infer_instance

/-- The validated `ServiceRequestIn` payload (src/main.py lines 70–76):
the client-suppliable fields only — there is no `status` and no
`assigned_center_id` field. -/
structure ServiceRequestIn where
  user_id : String
  product_id : String
  issue_description : String
  preferred_date : Option Date
  city : Option String
  media_urls : Option (List String)
  deriving DecidableEq, Repr

/-- A persisted service-request record, shaped by `schemas.ServiceRequest`
(src/schemas.py lines 55–67): the payload fields plus `status`
(default "pending") and `assigned_center_id` (default `None`). -/
structure SRRecord where
  user_id : String
  product_id : String
  issue_description : String
  preferred_date : Option Date
  city : Option String
  media_urls : Option (List String)
  status : String
  assigned_center_id : Option String
  deriving DecidableEq, Repr

/-- `ServiceRequest(**payload.model_dump())`: the pydantic model fills
the two fields the payload cannot carry with their declared defaults. -/
def SRRecord.ofPayload (p : ServiceRequestIn) : SRRecord :=
  { user_id := p.user_id
    product_id := p.product_id
    issue_description := p.issue_description
    preferred_date := p.preferred_date
    city := p.city
    media_urls := p.media_urls
    status := "pending"
    assigned_center_id := none }

/-- Modelled from the spec: `create_document` for the `servicerequest`
collection (`database.py` is not among the sources); per §6 insert-one
appends the record and returns a store-generated identifier (modelled
as the serial number of the insertion). -/
def create_document_sr (store : List SRRecord) (rec : SRRecord) :
    String × List SRRecord :=
  (toString store.length, store ++ [rec])

/-- `create_service_request` (src/main.py lines 147–151): validate,
persist through the schema model, answer with the id and a message. -/
def create_service_request (store : List SRRecord) (payload : ServiceRequestIn) :
    List SRRecord × Response :=
  let r := create_document_sr store (SRRecord.ofPayload payload)
  (r.2, [("id", some r.1), ("message", some "Service request created")])

/-- The validated `ProductIn` payload (src/main.py lines 55–63). -/
structure ProductIn where
  user_id : String
  brand : String
  model : String
  serial_number : String
  category : Option String
  purchase_date : Option Date
  warranty_months : Option Int
  invoice_url : Option String
  deriving DecidableEq, Repr

/-- A raw product payload before pydantic validation: each optional
field distinguishes absent (outer `none`) from explicit null. -/
structure RawProductIn where
  user_id : String
  brand : String
  model : String
  serial_number : String
  category : Option (Option String)
  purchase_date : Option (Option Date)
  warranty_months : Option (Option Int)
  invoice_url : Option (Option String)
  deriving DecidableEq, Repr

/-- Pydantic construction of `ProductIn`: a missing optional field takes
its declared default — `None` for `category`, `purchase_date` and
`invoice_url`, and `12` for `warranty_months`. -/
def ProductIn.ofRaw (r : RawProductIn) : ProductIn :=
  { user_id := r.user_id
    brand := r.brand
    model := r.model
    serial_number := r.serial_number
    category := r.category.getD none
    purchase_date := r.purchase_date.getD none
    warranty_months := r.warranty_months.getD (some 12)
    invoice_url := r.invoice_url.getD none }

/-- The extra constraint `schemas.Product` places on `warranty_months`
(src/schemas.py line 38, `ge=0, le=120`); `None` passes since the field
is optional.  `ProductIn` itself carries no bound, so the check happens
when `add_product` rebuilds the record through `schemas.Product`. -/
def productSchemaOk (p : ProductIn) : Bool :=
  match p.warranty_months with
  | none => true
  | some w => 0 ≤ w && w ≤ 120

/-- Modelled from the spec: `create_document` for the `product`
collection (`database.py` is not among the sources); per §6 insert-one
appends the record and returns a store-generated identifier.  The
sources do not fix the persisted form of `purchase_date`; a date value
is kept as a date here. -/
def create_document_product (store : List ProductDoc) (p : ProductIn) :
    String × List ProductDoc :=
  let doc : ProductDoc :=
    { oid := toString store.length
      user_id := p.user_id
      brand := p.brand
      model := p.model
      serial_number := p.serial_number
      category := p.category
      purchase_date := match p.purchase_date with
        | some d => StoredPD.d d
        | none => StoredPD.null
      warranty_months := p.warranty_months
      invoice_url := p.invoice_url }
  (doc.oid, store ++ [doc])

/-- `add_product` (src/main.py lines 100–115): rebuild the payload
through `schemas.Product` (whose `warranty_months` bound can reject it
— the `.error` branch), insert it, then compute `warranty_end` from the
input payload's own fields and answer id, warranty_end (ISO string or
null) and a message. -/
def add_product (store : List ProductDoc) (payload : ProductIn) :
    Except String (List ProductDoc × Response) :=
  if productSchemaOk payload then
    let r := create_document_product store payload
    let warranty_end := compute_warranty_end payload.purchase_date payload.warranty_months
    Except.ok (r.2,
      [("id", some r.1),
       ("warranty_end", warranty_end.map Date.isoformat),
       ("message", some "Product added successfully")])
  else
    Except.error "validation error"

/-- The outcome a store handle gives to `list_collection_names`: either
the names or a raised error carrying a message. -/
inductive ListCollResult where
  | ok (names : List String)
  | err (msg : String)
  deriving DecidableEq, Repr

/-- The reachable-store handle as the health check observes it. -/
structure DBState where
  collections : ListCollResult
  deriving DecidableEq, Repr

/-- The two connection environment variables, each possibly unset. -/
structure Env where
  database_url : Option String
  database_name : Option String
  deriving DecidableEq, Repr

/-- The `/test` response body (src/main.py lines 30–37). -/
structure TestResponse where
  backend : String
  database : String
  database_url : String
  database_name : String
  connection_status : String
  collections : List String
  deriving DecidableEq, Repr

/-- `test_database` (src/main.py lines 27–51): start from the
all-negative defaults; when the store handle exists, mark it available,
report whether each environment variable is truthily set, then try
`list_collection_names`, keeping at most 10 names on success and, on an
exception, embedding the error text truncated to 80 characters in the
`database` message.  Every outcome returns a response. -/
def test_database (db : Option DBState) (env : Env) : TestResponse :=
  let response : TestResponse :=
    { backend := "✅ Running"
      database := "❌ Not Available"
      database_url := "❌ Not Set"
      database_name := "❌ Not Set"
      connection_status := "Not Connected"
      collections := [] }
  match db with
  | none => response
  | some st =>
    let response := { response with
      database := "✅ Available"
      connection_status := "Connected"
      database_url := if truthyStr env.database_url then "✅ Set" else "❌ Not Set"
      database_name := if truthyStr env.database_name then "✅ Set" else "❌ Not Set" }
    match st.collections with
    | .ok names =>
      { response with
        collections := names.take 10
        database := "✅ Connected & Working" }
    | .err e =>
      { response with
        database := "⚠️ Connected but Error: " ++ String.mk (e.data.take 80) }

/-! ## Claim theorems -/

/-- C1: `compute_warranty_end` returns no value exactly when the
purchase date is absent, the month count is absent, or the month count
is non-positive; otherwise it returns the purchase date plus
`30 × months` days; in particular January 1 2024 with 12 months gives
December 26 2024. -/
theorem compute_warranty_end_spec :
    (∀ pd m, compute_warranty_end pd m = none ↔
      pd = none ∨ m = none ∨ ∃ k, m = some k ∧ k ≤ 0) ∧
    (∀ d k, 0 < k →
      compute_warranty_end (some d) (some k) = some (d.addDays (30 * k).toNat)) ∧
    compute_warranty_end (some ⟨2024, 1, 1⟩) (some 12) = some ⟨2024, 12, 26⟩ := by
  refine ⟨?_, ?_, by decide⟩
  · intro pd m
    cases pd with
    | none => simp [compute_warranty_end]
    | some d =>
      cases m with
      | none => simp [compute_warranty_end]
      | some k =>
        by_cases h : k ≤ 0
        all_goals simp [compute_warranty_end, h]
        all_goals omega
  · intro d k hk
    have h0 : ¬ (k = 0) := by omega
    have h1 : ¬ (k ≤ 0) := by omega
    simp [compute_warranty_end, h0, h1]

/-- C1 witness: the positive branch applied at January 1 2024 and
12 months. -/
theorem compute_warranty_end_spec_witness :
    compute_warranty_end (some ⟨2024, 1, 1⟩) (some 12) =
      some (Date.addDays ⟨2024, 1, 1⟩ ((30 * (12 : Int)).toNat)) :=
  compute_warranty_end_spec.2.1 ⟨2024, 1, 1⟩ 12 (by decide)

/-- C2: the warranty computation is a pure function of its two arguments
(equal inputs give equal outputs), and the coercion feeding it tolerates
every persisted form of `purchase_date`: a date passes through, a
date-time is projected to its date, a string is parsed first, and a
string that fails to parse becomes no value (so the warranty is no value)
instead of an error. -/
theorem compute_warranty_end_pure_and_tolerant :
    (∀ pd pd' m m', pd = pd' → m = m' →
      compute_warranty_end pd m = compute_warranty_end pd' m') ∧
    (∀ x, coerce_pd (StoredPD.d x) = some x) ∧
    (∀ x, coerce_pd (StoredPD.dt x) = some x) ∧
    (∀ s, coerce_pd (StoredPD.str s) = Date.fromisoformat s) ∧
    (∀ s m, Date.fromisoformat s = none →
      compute_warranty_end (coerce_pd (StoredPD.str s)) m = none) ∧
    coerce_pd (StoredPD.str "2023-06-15") = some ⟨2023, 6, 15⟩ := by
  refine ⟨?_, fun _ => rfl, fun _ => rfl, fun _ => rfl, ?_, by decide⟩
  · intro pd pd' m m' h1 h2
    rw [h1, h2]
  · intro s m h
    simp [coerce_pd, h, compute_warranty_end]

/-- C2 witness: the parse-error branch applied to a malformed string. -/
theorem compute_warranty_end_pure_and_tolerant_witness :
    compute_warranty_end (coerce_pd (StoredPD.str "not-a-date")) (some 12) = none :=
  compute_warranty_end_pure_and_tolerant.2.2.2.2.1 "not-a-date" (some 12) (by decide)

/-- Every element of a take-prefix is an element of the list. -/
theorem mem_of_mem_take {α : Type} {a : α} :
    ∀ {l : List α} {n : Nat}, a ∈ l.take n → a ∈ l := by
  intro l
  induction l with
  | nil => intro n h; simp at h
  | cons x xs ih =>
    intro n h
    cases n with
    | zero => simp at h
    | succ k =>
      simp only [List.take] at h
      rcases List.mem_cons.mp h with h1 | h2
      · exact List.mem_cons.mpr (Or.inl h1)
      · exact List.mem_cons.mpr (Or.inr (ih h2))

/-- C3: a stored record whose `purchase_date` does not parse never fails
the listing — the response still carries one entry per fetched document,
the affected document is post-processed to the same record with
`warranty_end` empty and every other field (including `id`) intact, and
it still appears in the response. -/
theorem list_products_tolerates_malformed_date :
    (∀ store uid brand,
      (list_products store uid brand).length =
        (get_documents_product store (mkProductFilter uid brand) 100).length) ∧
    (∀ (d : ProductDoc) s, d.purchase_date = StoredPD.str s →
      Date.fromisoformat s = none →
      processProductDoc d =
        { id := d.oid, user_id := d.user_id, brand := d.brand, model := d.model,
          serial_number := d.serial_number, category := d.category,
          purchase_date := d.purchase_date, warranty_months := d.warranty_months,
          invoice_url := d.invoice_url, warranty_end := none }) ∧
    (∀ store uid brand d,
      d ∈ get_documents_product store (mkProductFilter uid brand) 100 →
      processProductDoc d ∈ list_products store uid brand) := by
  refine ⟨?_, ?_, ?_⟩
  · intro store uid brand
    simp [list_products]
  · intro d s h1 h2
    simp [processProductDoc, coerce_pd, h1, h2, compute_warranty_end]
  · intro store uid brand d hd
    exact List.mem_map_of_mem processProductDoc hd

/-- C3 witness: a malformed stored date in a one-document store; the
record is returned with its fields and id, and no warranty end. -/
theorem list_products_tolerates_malformed_date_witness :
    processProductDoc
        { oid := "a1", user_id := "u1", brand := "Samsung", model := "M",
          serial_number := "S", category := none,
          purchase_date := StoredPD.str "13/01/2020", warranty_months := some 12,
          invoice_url := none } =
      { id := "a1", user_id := "u1", brand := "Samsung", model := "M",
        serial_number := "S", category := none,
        purchase_date := StoredPD.str "13/01/2020", warranty_months := some 12,
        invoice_url := none, warranty_end := none } :=
  list_products_tolerates_malformed_date.2.1
    { oid := "a1", user_id := "u1", brand := "Samsung", model := "M",
      serial_number := "S", category := none,
      purchase_date := StoredPD.str "13/01/2020", warranty_months := some 12,
      invoice_url := none }
    "13/01/2020" rfl (by decide)

/-- C4: the product listing never exceeds 100 records; with nonempty
`user_id` and `brand` query parameters, every returned record matches
both exact-equality filters; and every returned record is the
post-processing of a stored matching document — the post-processing
renames the identifier to `id` and recomputes `warranty_end` from the
document's own stored `purchase_date` and `warranty_months`. -/
theorem list_products_contract :
    (∀ store uid brand, (list_products store uid brand).length ≤ 100) ∧
    (∀ store u b o, u ≠ "" → b ≠ "" →
      o ∈ list_products store (some u) (some b) →
      o.user_id = u ∧ o.brand = b) ∧
    (∀ store uid brand o, o ∈ list_products store uid brand →
      ∃ d, d ∈ store ∧ matchesProduct (mkProductFilter uid brand) d = true ∧
        o = processProductDoc d) ∧
    (∀ d, (processProductDoc d).id = d.oid ∧
      (processProductDoc d).warranty_end =
        (compute_warranty_end (coerce_pd d.purchase_date) d.warranty_months).map
          Date.isoformat) := by
  have hsrc : ∀ store uid brand o, o ∈ list_products store uid brand →
      ∃ d, d ∈ store ∧ matchesProduct (mkProductFilter uid brand) d = true ∧
        o = processProductDoc d := by
    intro store uid brand o ho
    simp only [list_products, List.mem_map] at ho
    obtain ⟨d, hd, hod⟩ := ho
    have hd' : d ∈ store.filter (matchesProduct (mkProductFilter uid brand)) :=
      mem_of_mem_take hd
    rcases List.mem_filter.mp hd' with ⟨hmem, hmatch⟩
    exact ⟨d, hmem, hmatch, hod.symm⟩
  refine ⟨?_, ?_, hsrc, fun d => ⟨rfl, rfl⟩⟩
  · intro store uid brand
    simp only [list_products, List.length_map, get_documents_product]
    exact List.length_take_le 100 _
  · intro store u b o hu hb ho
    obtain ⟨d, _, hmatch, hod⟩ := hsrc store (some u) (some b) o ho
    have hu0 : u.isEmpty = false := by
      cases h : u.isEmpty
      · rfl
      · exact absurd ((String.isEmpty_iff u).mp h) hu
    have hb0 : b.isEmpty = false := by
      cases h : b.isEmpty
      · rfl
      · exact absurd ((String.isEmpty_iff b).mp h) hb
    have hu' : truthyStr (some u) = true := by simp [truthyStr, hu0]
    have hb' : truthyStr (some b) = true := by simp [truthyStr, hb0]
    simp only [mkProductFilter, hu', hb', if_pos, matchesProduct, Bool.and_eq_true,
      beq_iff_eq] at hmatch
    subst hod
    exact ⟨hmatch.1, hmatch.2⟩

/-- A sample stored product document, used to witness the listing
contract at a concrete input. -/
def sampleProductDoc : ProductDoc :=
  { oid := "a1", user_id := "u1", brand := "Samsung", model := "M",
    serial_number := "S", category := none, purchase_date := StoredPD.null,
    warranty_months := some 12, invoice_url := none }

/-- C4 witness: a one-document store filtered by user and brand returns
the matching document with the filtered values. -/
theorem list_products_contract_witness :
    (processProductDoc sampleProductDoc).user_id = "u1" ∧
    (processProductDoc sampleProductDoc).brand = "Samsung" :=
  list_products_contract.2.1 [sampleProductDoc] "u1" "Samsung"
    (processProductDoc sampleProductDoc) (by decide) (by decide) (by decide)

/-- A sample stored service-center document whose `brands` sequence
contains "LG" without being equal to it. -/
def sampleCenterDoc : CenterDoc :=
  { oid := "c1", name := "Center One", brands := ["Samsung", "LG"],
    address := "1 Main St", city := "Pune", phone := none, rating := none }

/-- C5: the service-center listing never exceeds 100 records; with
nonempty `city` and `brand` query parameters, every returned record has
exactly the requested city and a `brands` sequence containing the
requested brand as an element; every returned record is the rename-only
post-processing of a stored matching document (so no computed field is
added); and a center whose multi-element `brands` sequence merely
contains the brand is returned (membership, not equality). -/
theorem list_service_centers_contract :
    (∀ store city brand, (list_service_centers store city brand).length ≤ 100) ∧
    (∀ store c b o, c ≠ "" → b ≠ "" →
      o ∈ list_service_centers store (some c) (some b) →
      o.city = c ∧ o.brands.contains b = true) ∧
    (∀ store city brand o, o ∈ list_service_centers store city brand →
      ∃ d, d ∈ store ∧ matchesCenter (mkCenterFilter city brand) d = true ∧
        o = processCenterDoc d) ∧
    (∀ d, processCenterDoc d =
      { id := d.oid, name := d.name, brands := d.brands, address := d.address,
        city := d.city, phone := d.phone, rating := d.rating }) ∧
    list_service_centers [sampleCenterDoc] none (some "LG") =
      [processCenterDoc sampleCenterDoc] := by
  have hsrc : ∀ store city brand o, o ∈ list_service_centers store city brand →
      ∃ d, d ∈ store ∧ matchesCenter (mkCenterFilter city brand) d = true ∧
        o = processCenterDoc d := by
    intro store city brand o ho
    simp only [list_service_centers, List.mem_map] at ho
    obtain ⟨d, hd, hod⟩ := ho
    have hd' : d ∈ store.filter (matchesCenter (mkCenterFilter city brand)) :=
      mem_of_mem_take hd
    rcases List.mem_filter.mp hd' with ⟨hmem, hmatch⟩
    exact ⟨d, hmem, hmatch, hod.symm⟩
  refine ⟨?_, ?_, hsrc, fun d => rfl, by decide⟩
  · intro store city brand
    simp only [list_service_centers, List.length_map, get_documents_center]
    exact List.length_take_le 100 _
  · intro store c b o hc hb ho
    obtain ⟨d, _, hmatch, hod⟩ := hsrc store (some c) (some b) o ho
    have hc0 : c.isEmpty = false := by
      cases h : c.isEmpty
      · rfl
      · exact absurd ((String.isEmpty_iff c).mp h) hc
    have hb0 : b.isEmpty = false := by
      cases h : b.isEmpty
      · rfl
      · exact absurd ((String.isEmpty_iff b).mp h) hb
    have hc' : truthyStr (some c) = true := by simp [truthyStr, hc0]
    have hb' : truthyStr (some b) = true := by simp [truthyStr, hb0]
    simp only [mkCenterFilter, hc', hb', if_pos, matchesCenter, Bool.and_eq_true,
      beq_iff_eq] at hmatch
    subst hod
    exact ⟨hmatch.1, hmatch.2⟩

/-- C5 witness: the exact-city, member-brand case applied at a concrete
store. -/
theorem list_service_centers_contract_witness :
    (processCenterDoc sampleCenterDoc).city = "Pune" ∧
    (processCenterDoc sampleCenterDoc).brands.contains "LG" = true :=
  list_service_centers_contract.2.1 [sampleCenterDoc] "Pune" "LG"
    (processCenterDoc sampleCenterDoc) (by decide) (by decide) (by decide)

/-- C6: creating a service request appends exactly one record whose
payload fields are taken from the input, whose `status` is defaulted to
"pending" and whose `assigned_center_id` is absent (the payload schema
offers no way to supply either), and the response is exactly the two
fields `id` and `message`. -/
theorem create_service_request_contract :
    ∀ store payload,
      (create_service_request store payload).1 =
        store ++ [SRRecord.ofPayload payload] ∧
      (SRRecord.ofPayload payload).status = "pending" ∧
      (SRRecord.ofPayload payload).assigned_center_id = none ∧
      (SRRecord.ofPayload payload).user_id = payload.user_id ∧
      (SRRecord.ofPayload payload).product_id = payload.product_id ∧
      (SRRecord.ofPayload payload).issue_description = payload.issue_description ∧
      (SRRecord.ofPayload payload).preferred_date = payload.preferred_date ∧
      (SRRecord.ofPayload payload).city = payload.city ∧
      (SRRecord.ofPayload payload).media_urls = payload.media_urls ∧
      (create_service_request store payload).2 =
        [("id", some (toString store.length)),
         ("message", some "Service request created")] := by
  intro store payload
  refine ⟨rfl, rfl, rfl, rfl, rfl, rfl, rfl, rfl, rfl, rfl⟩

/-- C7: for a payload accepted by the `schemas.Product` re-validation
(the §3 notion of a valid Product payload), `add_product` answers
exactly the three fields `id`, `warranty_end` and `message`, with
`warranty_end` computed by `compute_warranty_end` from the input
payload's own `purchase_date` and `warranty_months` and rendered as an
ISO string or null. -/
theorem add_product_contract :
    ∀ store payload, productSchemaOk payload = true →
      add_product store payload = Except.ok
        ((create_document_product store payload).2,
         [("id", some (create_document_product store payload).1),
          ("warranty_end",
            (compute_warranty_end payload.purchase_date payload.warranty_months).map
              Date.isoformat),
          ("message", some "Product added successfully")]) := by
  intro store payload h
  simp [add_product, h]

/-- A sample valid product payload: purchased January 1 2024 with a
12-month warranty. -/
def samplePayload : ProductIn :=
  { user_id := "u1", brand := "Samsung", model := "M", serial_number := "S",
    category := none, purchase_date := some ⟨2024, 1, 1⟩,
    warranty_months := some 12, invoice_url := none }

/-- C7 witness: the contract applied to a concrete valid payload on an
empty store. -/
theorem add_product_contract_witness :
    add_product [] samplePayload = Except.ok
      ((create_document_product [] samplePayload).2,
       [("id", some (create_document_product [] samplePayload).1),
        ("warranty_end",
          (compute_warranty_end samplePayload.purchase_date
            samplePayload.warranty_months).map Date.isoformat),
        ("message", some "Product added successfully")]) :=
  add_product_contract [] samplePayload (by decide)

/-- C8 counterexample: a store failure whose text is 100 characters long
is surfaced through the health check as a `database` message of 104
characters — the message string itself is not truncated to at most 80
characters (only the embedded error text is). -/
theorem test_database_message_exceeds_80 :
    ¬ ((test_database
          (some ⟨ListCollResult.err (String.mk (List.replicate 100 'x'))⟩)
          ⟨none, none⟩).database.length ≤ 80) := by
  decide

/-- C8 (amended): the health check handles every store state — at most
10 collection names are reported; a raised store error is caught and
surfaced inside the `database` message with the error text truncated to
at most 80 characters (the message keeps a fixed prefix, so the whole
message may exceed 80); and whenever the connection parameters are
absent the response reports `database_url` and `database_name` as not
set. -/
theorem test_database_contract :
    (∀ db env, (test_database db env).collections.length ≤ 10) ∧
    (∀ st env e, st.collections = ListCollResult.err e →
      (test_database (some st) env).database =
        "⚠️ Connected but Error: " ++ String.mk (e.data.take 80) ∧
      (String.mk (e.data.take 80)).length ≤ 80) ∧
    (∀ db env, env.database_url = none → env.database_name = none →
      (test_database db env).database_url = "❌ Not Set" ∧
      (test_database db env).database_name = "❌ Not Set") := by
  refine ⟨?_, ?_, ?_⟩
  · intro db env
    cases db with
    | none => simp [test_database]
    | some st =>
      cases h : st.collections with
      | ok names =>
        simp only [test_database, h]
        exact List.length_take_le 10 names
      | err e => simp [test_database, h]
  · intro st env e h
    refine ⟨by simp [test_database, h], ?_⟩
    exact List.length_take_le 80 e.data
  · intro db env h1 h2
    cases db with
    | none => exact ⟨rfl, rfl⟩
    | some st =>
      cases h : st.collections with
      | ok names => simp [test_database, h, h1, h2, truthyStr]
      | err e => simp [test_database, h, h1, h2, truthyStr]

/-- C8 witness: the amended contract applied to a concrete erroring
store with both connection parameters absent. -/
theorem test_database_contract_witness :
    (test_database (some ⟨ListCollResult.err "boom"⟩) ⟨none, none⟩).database =
      "⚠️ Connected but Error: " ++ String.mk (("boom" : String).data.take 80) ∧
    (String.mk (("boom" : String).data.take 80)).length ≤ 80 :=
  test_database_contract.2.1 ⟨ListCollResult.err "boom"⟩ ⟨none, none⟩ "boom" rfl

/-- C9: a raw product payload that omits `warranty_months` is validated
to a payload carrying the default 12, so with a purchase date present
the create-product response carries `warranty_end` equal to the purchase
date plus 360 days, not null. -/
theorem warranty_months_default_applied :
    ∀ store r pd, r.warranty_months = none → r.purchase_date = some (some pd) →
      (ProductIn.ofRaw r).warranty_months = some 12 ∧
      add_product store (ProductIn.ofRaw r) = Except.ok
        ((create_document_product store (ProductIn.ofRaw r)).2,
         [("id", some (create_document_product store (ProductIn.ofRaw r)).1),
          ("warranty_end", some (Date.isoformat (pd.addDays 360))),
          ("message", some "Product added successfully")]) := by
  intro store r pd h1 h2
  have hwm : (ProductIn.ofRaw r).warranty_months = some 12 := by
    simp [ProductIn.ofRaw, h1]
  have hpd : (ProductIn.ofRaw r).purchase_date = some pd := by
    simp [ProductIn.ofRaw, h2]
  have hok : productSchemaOk (ProductIn.ofRaw r) = true := by
    simp [productSchemaOk, hwm]
  refine ⟨hwm, ?_⟩
  have hend : compute_warranty_end (ProductIn.ofRaw r).purchase_date
      (ProductIn.ofRaw r).warranty_months = some (pd.addDays 360) := by
    rw [hpd, hwm]
    rfl
  simp [add_product, hok, hend]

/-- A sample raw payload with `warranty_months` absent and a purchase
date present. -/
def sampleRawPayload : RawProductIn :=
  { user_id := "u1", brand := "Samsung", model := "M", serial_number := "S",
    category := none, purchase_date := some (some ⟨2024, 1, 1⟩),
    warranty_months := none, invoice_url := none }

/-- C9 witness: the default applied at a concrete raw payload. -/
theorem warranty_months_default_applied_witness :
    (ProductIn.ofRaw sampleRawPayload).warranty_months = some 12 ∧
    add_product [] (ProductIn.ofRaw sampleRawPayload) = Except.ok
      ((create_document_product [] (ProductIn.ofRaw sampleRawPayload)).2,
       [("id", some (create_document_product [] (ProductIn.ofRaw sampleRawPayload)).1),
        ("warranty_end", some (Date.isoformat (Date.addDays ⟨2024, 1, 1⟩ 360))),
        ("message", some "Product added successfully")]) :=
  warranty_months_default_applied [] sampleRawPayload ⟨2024, 1, 1⟩ rfl rfl

/-- C10: an empty-string query parameter is treated exactly like an
absent one by both listing handlers — no filter condition is added for
that field. -/
theorem empty_string_query_params_ignored :
    (∀ store brand, list_products store (some "") brand =
      list_products store none brand) ∧
    (∀ store uid, list_products store uid (some "") =
      list_products store uid none) ∧
    (∀ store brand, list_service_centers store (some "") brand =
      list_service_centers store none brand) ∧
    (∀ store city, list_service_centers store city (some "") =
      list_service_centers store city none) :=
  ⟨fun _ _ => rfl, fun _ _ => rfl, fun _ _ => rfl, fun _ _ => rfl⟩

end Backend
